import Mathlib

/-!
Shallow embedding of the mongoengine query/update transform
(`mongoengine/queryset/transform.py`) and of the parts of
`mongoengine/document.py` the verified claims refer to.

Python dictionaries are modelled as ordered association lists
(`List (String × Val)`); any ordering fact we prove about them is the
ordering the code makes explicit through `bson.SON`.
-/

namespace Mongo

/-- A Python/BSON value as it occurs in query and update documents.
Dictionaries are ordered association lists with string keys. -/
inductive Val where
  | null
  | bool (b : Bool)
  | int (n : Int)
  | str (s : String)
  | list (l : List Val)
  | dict (d : List (String × Val))

def Val.isDict : Val → Bool
  | .dict _ => true
  | _ => false

def Val.isList : Val → Bool
  | .list _ => true
  | _ => false

def Val.isNull : Val → Bool
  | .null => true
  | _ => false

/-- Python truthiness for the values we model (`bool(v)`). -/
def pyTruthy : Val → Bool
  | .null => false
  | .bool b => b
  | .int n => decide (n ≠ 0)
  | .str s => !s.toList.isEmpty
  | .list l => !l.isEmpty
  | .dict d => !d.isEmpty

/-- Truthiness of an attribute that may be unset (`not self.pk`). -/
def pyTruthyOpt : Option Val → Bool
  | none => false
  | some v => pyTruthy v

/-- `d[k]` lookup on an ordered dict, first match wins. -/
def dictLookup (k : String) : List (String × Val) → Option Val
  | [] => none
  | (k', v) :: rest => if k' == k then some v else dictLookup k rest

/-- `k in d`. -/
def dictHasKey (k : String) (d : List (String × Val)) : Bool :=
  (dictLookup k d).isSome

/-- `d[k] = v`: replace in place when the key exists (keys are unique in
a Python dict, so replacing the first occurrence is assignment), append
otherwise (insertion-ordered dict assignment). -/
def dictSet : List (String × Val) → String → Val → List (String × Val)
  | [], k, v => [(k, v)]
  | (k', v') :: rest, k, v =>
    if k' == k then (k, v) :: rest else (k', v') :: dictSet rest k v

/-- `d.update(new)`: fold the entries of `new` into `d` in order. -/
def dictUpdate (d new : List (String × Val)) : List (String × Val) :=
  new.foldl (fun acc kv => dictSet acc kv.1 kv.2) d

/-- `del d[k]` / `d.pop(k, None)`. -/
def dictErase (k : String) (d : List (String × Val)) : List (String × Val) :=
  d.filter (fun kv => !(kv.1 == k))

/-- Exceptions the transform layer can raise.  The `nameError`,
`typeError`, `indexError` and `keyError` constructors stand for the
uncaught Python runtime errors the source would raise on the same input. -/
inductive QErr where
  | invalidQuery (msg : String)
  | notImplemented (msg : String)
  | nameError
  | typeError
  | indexError
  | keyError
deriving DecidableEq

def COMPARISON_OPERATORS : List String :=
  ["ne", "gt", "gte", "lt", "lte", "in", "nin", "mod",
   "all", "size", "exists", "not"]

def GEO_OPERATORS : List String :=
  ["within_distance", "within_spherical_distance",
   "within_box", "within_polygon", "near", "near_sphere",
   "max_distance", "geo_within", "geo_within_box",
   "geo_within_polygon", "geo_within_center",
   "geo_within_sphere", "geo_intersects"]

def STRING_OPERATORS : List String :=
  ["contains", "icontains", "startswith",
   "istartswith", "endswith", "iendswith",
   "exact", "iexact"]

def CUSTOM_OPERATORS : List String := ["match"]

def MATCH_OPERATORS : List String :=
  COMPARISON_OPERATORS ++ GEO_OPERATORS ++ STRING_OPERATORS ++ CUSTOM_OPERATORS

def UPDATE_OPERATORS : List String :=
  ["set", "unset", "inc", "dec", "pop", "push",
   "pull", "pull_all", "add_to_set", "set_on_insert"]

/-- `s.split('__')`: split on each non-overlapping occurrence of a
double underscore, scanning left to right. -/
def splitDunder : List Char → List (List Char)
  | [] => [[]]
  | '_' :: '_' :: rest => [] :: splitDunder rest
  | x :: xs =>
    match splitDunder xs with
    | [] => [[x]]
    | h :: t => (x :: h) :: t

/-- `key.split('__')` on a Lean string. -/
def pySplitDunder (s : String) : List String :=
  (splitDunder s.toList).map (fun cs => String.mk cs)

/-- Python `str.isdigit()`: non-empty and all characters are digits. -/
def pyIsDigit (s : String) : Bool :=
  !s.toList.isEmpty && s.toList.all Char.isDigit

/-- `[(i, p) for i, p in enumerate(parts) if p.isdigit()]`, with the
enumeration counter starting at `k`. -/
def digitIndicesFrom (k : Nat) : List String → List (Nat × String)
  | [] => []
  | p :: ps =>
    if pyIsDigit p then (k, p) :: digitIndicesFrom (k + 1) ps
    else digitIndicesFrom (k + 1) ps

/-- Python `list.insert(i, x)`: insert before position `i`, appending when
`i` is past the end. -/
def insertAt : Nat → String → List String → List String
  | 0, x, l => x :: l
  | _ + 1, x, [] => [x]
  | n + 1, x, a :: l => a :: insertAt n x l

/-- `for i, part in indices: parts.insert(i, part)`. -/
def reinsertAll (indices : List (Nat × String)) (parts : List String) :
    List String :=
  indices.foldl (fun acc ip => insertAt ip.1 ip.2 acc) parts

/-- `'.'.join(parts)`. -/
def joinDot : List String → String
  | [] => ""
  | [p] => p
  | p :: q :: rest => p ++ "." ++ joinDot (q :: rest)

/-- The slice of the field/schema collaborator the transform layer
consumes: storage name, geo-index kind, requiredness and the
`prepare_query_value` coercion hook. -/
structure Field where
  db_field : String
  geo2d : Bool
  required : Bool
  prep : Option String → Val → Val

/-- One element of the list `_lookup_field` returns: either a literal
path token or a resolved field object. -/
inductive FieldItem where
  | raw (s : String)
  | fld (f : Field)

/-- The document-class collaborator (`_doc_cls`): field lookup by
logical name chain, raising on unresolvable names. -/
structure Schema where
  lookupF : List String → Except String (List FieldItem)

/-- `value[0]` under a bare `except:`—`some` when Python indexing would
succeed (non-empty lists and strings), `none` when it would raise. -/
def getItem0 : Val → Option Val
  | .list (x :: _) => some x
  | .str s =>
    match s.toList with
    | [] => none
    | c :: _ => some (.str (String.mk [c]))
  | _ => none

/-- `value[0][0]...[0]`, `n` levels deep. -/
def idxChain : Nat → Val → Option Val
  | 0, v => some v
  | n + 1, v => (getItem0 v).bind (idxChain n)

/-- `_infer_geometry` from `transform.py`. -/
def inferGeometry (value : Val) : Except QErr Val :=
  match value with
  | .dict d =>
    if dictHasKey "$geometry" d then .ok (.dict d)
    else if dictHasKey "coordinates" d && dictHasKey "type" d then
      .ok (.dict [("$geometry", .dict d)])
    else
      .error (.invalidQuery
        "Invalid $geometry dictionary should have type and coordinates keys")
  | .list l =>
    if (idxChain 3 (.list l)).isSome then
      .ok (.dict [("$geometry",
        .dict [("type", .str "Polygon"), ("coordinates", .list l)])])
    else if (idxChain 2 (.list l)).isSome then
      .ok (.dict [("$geometry",
        .dict [("type", .str "LineString"), ("coordinates", .list l)])])
    else if (idxChain 1 (.list l)).isSome then
      .ok (.dict [("$geometry",
        .dict [("type", .str "Point"), ("coordinates", .list l)])])
    else
      .error (.invalidQuery
        "Invalid $geometry data. Can be either a dictionary or (nested) lists of coordinate(s)")
  | _ =>
    .error (.invalidQuery
      "Invalid $geometry data. Can be either a dictionary or (nested) lists of coordinate(s)")

/-- `_geo_operator` from `transform.py`. -/
def geoOperator (f : Field) (op : String) (value : Val) : Except QErr Val :=
  if f.geo2d then
    if op == "within_distance" then
      .ok (.dict [("$within", .dict [("$center", value)])])
    else if op == "within_spherical_distance" then
      .ok (.dict [("$within", .dict [("$centerSphere", value)])])
    else if op == "within_polygon" then
      .ok (.dict [("$within", .dict [("$polygon", value)])])
    else if op == "near" then
      .ok (.dict [("$near", value)])
    else if op == "near_sphere" then
      .ok (.dict [("$nearSphere", value)])
    else if op == "within_box" then
      .ok (.dict [("$within", .dict [("$box", value)])])
    else if op == "max_distance" then
      .ok (.dict [("$maxDistance", value)])
    else
      .error (.notImplemented
        "Geo method has not been implemented for a GeoPointField")
  else
    if op == "geo_within" then
      (inferGeometry value).map (fun g => .dict [("$geoWithin", g)])
    else if op == "geo_within_box" then
      .ok (.dict [("$geoWithin", .dict [("$box", value)])])
    else if op == "geo_within_polygon" then
      .ok (.dict [("$geoWithin", .dict [("$polygon", value)])])
    else if op == "geo_within_center" then
      .ok (.dict [("$geoWithin", .dict [("$center", value)])])
    else if op == "geo_within_sphere" then
      .ok (.dict [("$geoWithin", .dict [("$centerSphere", value)])])
    else if op == "geo_intersects" then
      (inferGeometry value).map (fun g => .dict [("$geoIntersects", g)])
    else if op == "near" then
      (inferGeometry value).map (fun g => .dict [("$near", g)])
    else if op == "max_distance" then
      .ok (.dict [("$maxDistance", value)])
    else
      .error (.notImplemented "Geo method has not been implemented")

/-- `singular_ops` of `transform.query` (includes the `None` operator). -/
def isSingularOp (op : Option String) : Bool :=
  match op with
  | none => true
  | some o => (["ne", "gt", "gte", "lt", "lte", "not"] ++ STRING_OPERATORS).contains o

/-- The `('in', 'nin', 'all', 'near')` element-wise coercion group. -/
def isListValueOp (op : Option String) : Bool :=
  match op with
  | none => false
  | some o => ["in", "nin", "all", "near"].contains o

/-- Accumulator of `transform.query`: the result dict plus the
`merge_query` side collection of same-key conflicts. -/
structure QState where
  mongo : List (String × Val)
  merge : List (String × List Val)

/-- `merge_query[key].append(value)` on a `defaultdict(list)`. -/
def mergeAppend (m : List (String × List Val)) (k : String) (v : Val) :
    List (String × List Val) :=
  if m.any (fun kv => kv.1 == k) then
    m.map (fun kv => if kv.1 == k then (kv.1, kv.2 ++ [v]) else kv)
  else m ++ [(k, [v])]

/-- The `$maxDistance needs to come last` fix-up of `transform.query`:
when the merged operator document holds `$maxDistance`, rebuild it with
that key moved to the end (the code materialises this as a `SON`). -/
def mergeMaxDistanceLast (d : List (String × Val)) : List (String × Val) :=
  match dictLookup "$maxDistance" d with
  | some mv => (d.filter (fun kv => !(kv.1 == "$maxDistance"))) ++ [("$maxDistance", mv)]
  | none => d

/-- The `_doc_cls` branch of `transform.query`: `_lookup_field`, storage
renaming and `prepare_query_value` coercion.  The `isinstance(field, str)`
test on `cleaned_fields[-1]` in the source can never fire (only resolved
field objects are collected there), so it is not modelled.  Element-wise
coercion is modelled for list values; other non-dict iterables are mapped
to the runtime error Python would reach. -/
def querySchemaStep (sch : Schema) (parts : List String) (op : Option String)
    (value : Val) : Except QErr (List String × Val × Field) := do
  match sch.lookupF parts with
  | .error e => throw (.invalidQuery e)
  | .ok fields =>
    let parts' := fields.map (fun fi =>
      match fi with | .raw s => s | .fld f => f.db_field)
    let cleaned := fields.filterMap (fun fi =>
      match fi with | .fld f => some f | .raw _ => none)
    match cleaned.getLast? with
    | none => throw .indexError
    | some field =>
      if isSingularOp op then
        pure (parts', field.prep op value, field)
      else if isListValueOp op && !value.isDict then
        match value with
        | .list l => pure (parts', .list (l.map (field.prep op)), field)
        | _ => throw .typeError
      else
        pure (parts', value, field)

/-- One iteration of the main loop of `transform.query`. -/
def processQueryPair (cls : Option Schema) (st : QState) (kv : String × Val) :
    Except QErr QState := do
  let key := kv.1
  let value := kv.2
  if key == "__raw__" then
    match value with
    | .dict d => pure ⟨dictUpdate st.mongo d, st.merge⟩
    | _ => throw .typeError
  else
    let parts0 := pySplitDunder key
    let indices := digitIndicesFrom 0 parts0
    let parts1 := parts0.filter (fun p => !pyIsDigit p)
    match parts1.getLast? with
    | none => throw .indexError
    | some lastp =>
      let opStep : Option String × List String :=
        if MATCH_OPERATORS.contains lastp then (some lastp, parts1.dropLast)
        else (none, parts1)
      let op := opStep.1
      match opStep.2.getLast? with
      | none => throw .indexError
      | some last2 =>
        let negStep : Bool × List String :=
          if last2 == "not" then (true, opStep.2.dropLast) else (false, opStep.2)
        let negate := negStep.1
        let resolved : List String × Val × Option Field ←
          match cls with
          | none => pure (negStep.2, value, none)
          | some sch => do
            let r ← querySchemaStep sch negStep.2 op value
            pure (r.1, r.2.1, some r.2.2)
        let parts2 := resolved.1
        let value1 := resolved.2.1
        let fieldOpt := resolved.2.2
        let value2 ←
          match op with
          | none => pure value1
          | some o =>
            if GEO_OPERATORS.contains o then
              match fieldOpt with
              | some f => geoOperator f o value1
              | none => throw .nameError
            else if CUSTOM_OPERATORS.contains o then
              pure (if o == "match" then Val.dict [("$elemMatch", value1)] else value1)
            else if STRING_OPERATORS.contains o then
              pure value1
            else
              pure (Val.dict [("$" ++ o, value1)])
        let value3 := if negate then Val.dict [("$not", value2)] else value2
        let finalKey := joinDot (reinsertAll indices parts2)
        if op.isNone || !(dictHasKey finalKey st.mongo) then
          pure ⟨dictSet st.mongo finalKey value3, st.merge⟩
        else
          match dictLookup finalKey st.mongo with
          | some (.dict d) =>
            match value3 with
            | .dict vd =>
              pure ⟨dictSet st.mongo finalKey
                      (.dict (mergeMaxDistanceLast (dictUpdate d vd))),
                    st.merge⟩
            | _ => throw .typeError
          | some _ => pure ⟨st.mongo, mergeAppend st.merge finalKey value3⟩
          | none => throw .keyError

/-- The final `merge_query` fold of `transform.query`: move each
conflicting key out of the result and into a top-level `$and` list of
one-key documents (the pre-existing value is appended last). -/
def foldMergeQuery (mongo : List (String × Val)) (entry : String × List Val) :
    Except QErr (List (String × Val)) := do
  let k := entry.1
  match dictLookup k mongo with
  | none => throw .keyError
  | some cur =>
    let vlist := entry.2 ++ [cur]
    let mongo' := dictErase k mongo
    let andDocs : List Val := vlist.map (fun v => Val.dict [(k, v)])
    match dictLookup "$and" mongo' with
    | some (.list l) => pure (dictSet mongo' "$and" (.list (l ++ [.list andDocs])))
    | some _ => throw .typeError
    | none => pure (dictSet mongo' "$and" (.list andDocs))

/-- Lexicographic code-point comparison, Python `a < b` on strings. -/
def charListLt : List Char → List Char → Bool
  | [], [] => false
  | [], _ :: _ => true
  | _ :: _, [] => false
  | a :: as, b :: bs =>
    if a < b then true else if b < a then false else charListLt as bs

def strLt (a b : String) : Bool :=
  charListLt a.toList b.toList

/-- Stable insertion into a key-sorted pair list. -/
def insertSorted (kv : String × Val) : List (String × Val) → List (String × Val)
  | [] => [kv]
  | x :: xs => if strLt x.1 kv.1 then x :: insertSorted kv xs else kv :: x :: xs

/-- `sorted(query.items())`; keyword keys are unique, so the sort only
compares keys. -/
def sortByKey (l : List (String × Val)) : List (String × Val) :=
  l.foldr insertSorted []

/-- `transform.query`: compile Django-style filter pairs to a Mongo
query document. -/
def compileQuery (cls : Option Schema) (pairs : List (String × Val)) :
    Except QErr Val := do
  let st ← (sortByKey pairs).foldlM (processQueryPair cls) ⟨[], []⟩
  let mongo ← st.merge.foldlM foldMergeQuery st.mongo
  pure (.dict mongo)

/-- Canonicalisation of a leading update operator token, including the
sign flip `dec → inc`.  The `value > 0` comparison is modelled on the
integer values the operator is used with. -/
def canonicalizeUpdateOp (p : String) (value : Val) : String × Val :=
  if p == "pull_all" then ("pullAll", value)
  else if p == "dec" then
    ("inc", match value with
            | .int n => if 0 < n then .int (-n) else .int n
            | v => v)
  else if p == "add_to_set" then ("addToSet", value)
  else if p == "set_on_insert" then ("setOnInsert", value)
  else (p, value)

/-- The `_doc_cls` branch of `transform.update`: `_lookup_field`, the
`S → $` positional placeholder and per-operator value coercion. -/
def updateSchemaStep (sch : Schema) (parts : List String) (op : Option String)
    (value : Val) : Except QErr (List String × Val) := do
  match sch.lookupF parts with
  | .error e => throw (.invalidQuery e)
  | .ok fields =>
    let parts' := fields.map (fun fi =>
      match fi with
      | .raw s => if s == "S" then "$" else s
      | .fld f => f.db_field)
    let cleaned := fields.filterMap (fun fi =>
      match fi with | .fld f => some f | .raw _ => none)
    match cleaned.getLast? with
    | none => throw .indexError
    | some field =>
      if op == none || op == some "set" || op == some "push" || op == some "pull" then
        pure (parts', if field.required || !value.isNull then field.prep op value else value)
      else if op == some "pushAll" || op == some "pullAll" then
        match value with
        | .list l => pure (parts', .list (l.map (field.prep op)))
        | _ => throw .typeError
      else if op == some "addToSet" then
        match value with
        | .list l => pure (parts', .list (l.map (field.prep op)))
        | v => pure (parts', if field.required || !v.isNull then field.prep op v else v)
      else
        pure (parts', value)

/-- One iteration of the main loop of `transform.update`.  After
canonicalisation, `pull` and `pullAll` are exactly the operators the
source's substring test `'pull' in op` accepts. -/
def processUpdatePair (cls : Option Schema) (mu : List (String × Val))
    (kv : String × Val) : Except QErr (List (String × Val)) := do
  let key := kv.1
  let value := kv.2
  if key == "__raw__" then
    match value with
    | .dict d => pure (dictUpdate mu d)
    | _ => throw .typeError
  else
    let parts0 := pySplitDunder key
    let opStep : Option String × Val × List String :=
      match parts0 with
      | [] => (none, value, parts0)
      | p :: rest =>
        if UPDATE_OPERATORS.contains p then
          let c := canonicalizeUpdateOp p value
          (some c.1, c.2, rest)
        else (none, value, parts0)
    let op := opStep.1
    let value0 := opStep.2.1
    let parts1 := opStep.2.2
    match parts1.getLast? with
    | none => throw .indexError
    | some lastp =>
      let mtchStep : Option String × List String :=
        if COMPARISON_OPERATORS.contains lastp then (some lastp, parts1.dropLast)
        else (none, parts1)
      let mtch := mtchStep.1
      let resolved : List String × Val ←
        match cls with
        | none => pure (mtchStep.2, value0)
        | some sch => updateSchemaStep sch mtchStep.2 op value0
      let parts2 := resolved.1
      let value1 := resolved.2
      let value2 := match mtch with
        | some m => Val.dict [("$" ++ m, value1)]
        | none => value1
      let key1 := joinDot parts2
      match op with
      | none => throw (.invalidQuery "Updates must supply an operation eg: set__FIELD=value")
      | some o => do
        let value3 ←
          if (o == "pull" || o == "pullAll") && key1.toList.contains '.' then
            if o == "pullAll" then
              throw (.invalidQuery "pullAll operations only support a single field depth")
            else
              pure (parts2.reverse.foldl (fun acc p => Val.dict [(p, acc)]) value2)
          else if o == "addToSet" && value2.isList then
            pure (Val.dict [(key1, Val.dict [("$each", value2)])])
          else
            pure (Val.dict [(key1, value2)])
        let opKey := "$" ++ o
        if !(dictHasKey opKey mu) then
          pure (dictSet mu opKey value3)
        else
          match dictLookup opKey mu, value3 with
          | some (.dict d), .dict vd => pure (dictSet mu opKey (.dict (dictUpdate d vd)))
          | some (.dict _), _ => throw .typeError
          | _, _ => pure mu

/-- `transform.update`: compile Django-style update pairs to a Mongo
update document (pairs are processed in the order given; the source does
not sort them). -/
def compileUpdate (cls : Option Schema) (pairs : List (String × Val)) :
    Except QErr Val := do
  let mu ← pairs.foldlM (processUpdatePair cls) []
  pure (.dict mu)

/-- A value that counts as absent/empty for delta purposes: missing,
`None`, an empty dict or an empty list. -/
def valEmptyOpt : Option Val → Bool
  | none => true
  | some .null => true
  | some (.dict []) => true
  | some (.list []) => true
  | some _ => false

/-- Modelled from the spec: `BaseDocument._delta` is not under `src/`
(only `document.py`, which calls it, and its tests are).  Per the spec,
for a previously persisted document the engine walks the recorded dirty
paths in order and, for each, emits `unsets[path] = 1` (type-independent
sentinel) when the value is now absent/empty but previously had content,
and otherwise emits `sets[path] = serialize(currentValue)` (serialization
is modelled as the identity on our value type).  A freshly hydrated
document has an empty dirty-path set, so its delta is `({}, {})`. -/
def deltaModel (dirty : List String) (current prior : List (String × Val)) :
    List (String × Val) × List (String × Val) :=
  dirty.foldl
    (fun acc path =>
      if valEmptyOpt (dictLookup path current) &&
         !valEmptyOpt (dictLookup path prior) then
        (acc.1, acc.2 ++ [(path, Val.int 1)])
      else
        (acc.1 ++ [(path, (dictLookup path current).getD Val.null)], acc.2))
    ([], [])

/-- A call to the storage collaborator, as issued by `document.py`. -/
inductive StorageCall where
  | collectionUpdate (filter : Val) (updateQuery : Val)
  | collectionInsert (doc : Val)
  | queryUpdateOne (filter : Val) (kwargs : List (String × Val))

inductive DocErr where
  | operationError (msg : String)
deriving DecidableEq

/-- The state of a `Document` instance as `Document.save` consumes it:
the lifecycle flag `_created`, the delta `_delta()` would report, the
primary key's storage name and the update filter / full serialization. -/
structure DocState where
  created : Bool
  deltaSets : List (String × Val)
  deltaUnsets : List (String × Val)
  dbIdField : String
  dbObjectKey : Val
  toSon : Val

/-- The `update_query` document `Document.save` assembles for a
previously persisted document: the delta's sets with the primary-key
storage field popped, under `$set`, and the delta's unsets under
`$unset`, each omitted when empty. -/
def saveUpdateQuery (d : DocState) : List (String × Val) :=
  let sets := dictErase d.dbIdField d.deltaSets
  (if sets.isEmpty then [] else [("$set", Val.dict sets)]) ++
    (if d.deltaUnsets.isEmpty then [] else [("$unset", Val.dict d.deltaUnsets)])

/-- `Document.save`: the sequence of storage-collaborator calls it
issues.  An existing document issues `collection.update` only when the
assembled update document is non-empty; a new document issues
`collection.insert` with the full serialization. -/
def docSave (d : DocState) : List StorageCall :=
  if d.created then
    if (saveUpdateQuery d).isEmpty then []
    else [.collectionUpdate d.dbObjectKey (.dict (saveUpdateQuery d))]
  else [.collectionInsert d.toSon]

/-- `Document.update`: raises `OperationError` when `self.pk` is falsy,
otherwise delegates one `update_one` call keyed by `{'pk': pk}` to the
queryset collaborator.  The first component is the trace of
storage-collaborator calls made. -/
def docUpdate (pk : Option Val) (kwargs : List (String × Val)) :
    List StorageCall × Except DocErr Unit :=
  if pyTruthyOpt pk then
    ([.queryUpdateOne (Val.dict [("pk", pk.getD .null)]) kwargs], .ok ())
  else
    ([], .error (.operationError "attempt to update a document not yet saved"))

/-- `Document.to_dbref`: raises `OperationError` when `self.pk` is
falsy, otherwise returns a `DBRef` (collection name, pk) without
touching storage. -/
def docToDbref (collName : String) (pk : Option Val) :
    List StorageCall × Except DocErr (String × Val) :=
  if pyTruthyOpt pk then
    ([], .ok (collName, pk.getD .null))
  else
    ([], .error (.operationError "Only saved documents can have a valid dbref"))

/-- The 2D geo field and one-field schema used to exercise the geo merge. -/
def locField : Field := Field.mk "loc" true false (fun _ v => v)

def geoSchema : Schema := Schema.mk (fun parts =>
  if parts == ["loc"] then .ok [.fld locField]
  else .error "Cannot resolve the field")

theorem dictLookup_dictSet_self (d : List (String × Val)) (k : String) (v : Val) :
    dictLookup k (dictSet d k v) = some v := by
  induction d with
  | nil => simp [dictSet, dictLookup]
  | cons hd tl ih =>
    obtain ⟨k', v'⟩ := hd
    by_cases h : k' == k
    · simp [dictSet, dictLookup, h]
    · simp only [dictSet, h, Bool.false_eq_true, if_false, dictLookup, ih]

theorem dictLookup_dictErase_self (k : String) (d : List (String × Val)) :
    dictLookup k (dictErase k d) = none := by
  induction d with
  | nil => rfl
  | cons hd tl ih =>
    obtain ⟨k', v'⟩ := hd
    by_cases h : k' == k
    · simp [dictErase, h] at ih ⊢
      exact ih
    · simp [dictErase, dictLookup, h] at ih ⊢
      exact ih

/-- C1: when two constraints resolve to the same storage key and the
existing entry is a bare-equality value (not a mapping) while the later
pair adds an operator for that key, `compileQuery` removes the key from
the main result and emits a top-level `$and` list of single-key
documents that contains both constraints; in particular
`compileQuery(ref=A, ref__in=[A,B])` yields a result whose only
top-level entry is such an `$and` list containing both `{"ref": A}` and
`{"ref": {"$in": [A, B]}}`. -/
theorem claim1_same_key_conflict (a b : Val) (ha : a.isDict = false) :
    ∃ l : List Val,
      compileQuery none [("ref", a), ("ref__in", .list [a, b])] =
        .ok (.dict [("$and", .list l)]) ∧
      Val.dict [("ref", a)] ∈ l ∧
      Val.dict [("ref", .dict [("$in", .list [a, b])])] ∈ l := by
  refine ⟨[.dict [("ref", .dict [("$in", .list [a, b])])], .dict [("ref", a)]],
          ?_, ?_, ?_⟩
  · cases a with
    | dict d => simp [Val.isDict] at ha
    | null => rfl
    | bool x => rfl
    | int n => rfl
    | str s => rfl
    | list l => rfl
  · simp
  · simp

/-- C1 witness: the concrete instance with `A = 7`, `B = 8`. -/
theorem claim1_same_key_conflict_witness :
    (Val.int 7).isDict = false ∧
    ∃ l : List Val,
      compileQuery none [("ref", .int 7), ("ref__in", .list [.int 7, .int 8])] =
        .ok (.dict [("$and", .list l)]) ∧
      Val.dict [("ref", .int 7)] ∈ l ∧
      Val.dict [("ref", .dict [("$in", .list [.int 7, .int 8])])] ∈ l :=
  ⟨rfl, claim1_same_key_conflict (.int 7) (.int 8) rfl⟩

/-- C2: two pairs resolving to the same storage key whose existing value
is an operator document are merged into that document
(`compileQuery(age__gt=1, age__lt=10)` gives
`{"age": {"$gt": 1, "$lt": 10}}`), and the merge is a dict update on
which a later value wins for an identical key. -/
theorem claim2_same_key_operator_merge :
    (∀ x y : Int,
      compileQuery none [("age__gt", .int x), ("age__lt", .int y)] =
        .ok (.dict [("age", .dict [("$gt", .int x), ("$lt", .int y)])])) ∧
    (∀ (d : List (String × Val)) (k : String) (v : Val),
      dictLookup k (dictSet d k v) = some v) :=
  ⟨fun _ _ => rfl, dictLookup_dictSet_self⟩

/-- C4: after canonicalisation, a `pull`-family operator with a
multi-segment path never emits a flat dotted key: `pullAll` raises
`InvalidQueryError`, while `pull` inverts the path into nested one-key
dicts with the innermost segment holding the match value; a
single-segment `pullAll` still compiles to a flat key. -/
theorem claim4_nested_pull :
    compileUpdate none [("pull_all__a__b", .list [.int 1])] =
      .error (.invalidQuery "pullAll operations only support a single field depth") ∧
    (∀ v : Val,
      compileUpdate none [("pull__a__b__c", v)] =
        .ok (.dict [("$pull", .dict [("a", .dict [("b", .dict [("c", v)])])])])) ∧
    (∀ v : Val,
      compileUpdate none [("pull_all__tags", v)] =
        .ok (.dict [("$pullAll", .dict [("tags", v)])])) :=
  ⟨rfl, fun _ => rfl, fun _ => rfl⟩

/-- C5: `dec` canonicalises to `$inc`, flipping a positive value's sign
(`compileUpdate(dec__hits=1)` gives `{"$inc": {"hits": -1}}`), while a
non-positive value passes through to `$inc` unchanged. -/
theorem claim5_dec_to_inc :
    compileUpdate none [("dec__hits", .int 1)] =
      .ok (.dict [("$inc", .dict [("hits", .int (-1))])]) ∧
    (∀ n : Int, n ≤ 0 →
      compileUpdate none [("dec__hits", .int n)] =
        .ok (.dict [("$inc", .dict [("hits", .int n)])])) := by
  refine ⟨rfl, fun n hn => ?_⟩
  have base : compileUpdate none [("dec__hits", .int n)] =
      .ok (.dict [("$inc", .dict [("hits",
        if 0 < n then Val.int (-n) else Val.int n)])]) := rfl
  rw [base, if_neg (by omega)]

/-- C5 witness: `dec__hits=-2` passes `-2` through to `$inc`. -/
theorem claim5_dec_to_inc_witness :
    (-2 : Int) ≤ 0 ∧
    compileUpdate none [("dec__hits", .int (-2))] =
      .ok (.dict [("$inc", .dict [("hits", .int (-2))])]) :=
  ⟨by norm_num, claim5_dec_to_inc.2 (-2) (by norm_num)⟩

/-- C9: `Document.update` and `Document.to_dbref` on a document whose
primary key is unset raise `OperationError` with an empty trace of
storage-collaborator calls, i.e. before any storage call is made. -/
theorem claim9_unsaved_pk_raises :
    ∀ (kwargs : List (String × Val)) (collName : String),
      docUpdate none kwargs =
        ([], .error (.operationError "attempt to update a document not yet saved")) ∧
      docToDbref collName none =
        ([], .error (.operationError "Only saved documents can have a valid dbref")) :=
  fun _ _ => ⟨rfl, rfl⟩

theorem getLast?_append_single {α : Type} (l : List α) (a : α) :
    (l ++ [a]).getLast? = some a := by
  induction l with
  | nil => rfl
  | cons x xs ih =>
    cases xs with
    | nil => rfl
    | cons y ys =>
      rw [List.cons_append, List.cons_append, List.getLast?_cons_cons]
      exact ih

/-- C6: whenever `$maxDistance` occurs in an operator document merged by
`compileQuery` for a storage key, the merged document's last key is
`$maxDistance`; concretely, merging `loc__max_distance` with `loc__near`
on a 2D geo field places `$maxDistance` last whichever order the two
pairs are supplied in. -/
theorem claim6_maxdistance_last :
    (∀ (d : List (String × Val)) (mv : Val),
      dictLookup "$maxDistance" d = some mv →
      (mergeMaxDistanceLast d).getLast? = some ("$maxDistance", mv)) ∧
    compileQuery (some geoSchema)
        [("loc__max_distance", .int 5), ("loc__near", .list [.int 1, .int 2])] =
      .ok (.dict [("loc", .dict [("$near", .list [.int 1, .int 2]),
                                 ("$maxDistance", .int 5)])]) ∧
    compileQuery (some geoSchema)
        [("loc__near", .list [.int 1, .int 2]), ("loc__max_distance", .int 5)] =
      .ok (.dict [("loc", .dict [("$near", .list [.int 1, .int 2]),
                                 ("$maxDistance", .int 5)])]) := by
  refine ⟨?_, rfl, rfl⟩
  intro d mv h
  simp only [mergeMaxDistanceLast, h]
  exact getLast?_append_single _ _

/-- C6 witness: a concrete merged operator document. -/
theorem claim6_maxdistance_last_witness :
    dictLookup "$maxDistance" [("$maxDistance", Val.int 5), ("$near", Val.int 1)] =
      some (Val.int 5) ∧
    (mergeMaxDistanceLast
        [("$maxDistance", Val.int 5), ("$near", Val.int 1)]).getLast? =
      some ("$maxDistance", Val.int 5) :=
  ⟨rfl, claim6_maxdistance_last.1 _ _ rfl⟩

theorem idxChain_isSome_succ :
    ∀ (n : Nat) (v : Val),
      (idxChain (n + 1) v).isSome = true → (idxChain n v).isSome = true := by
  intro n
  induction n with
  | zero => intro v _; rfl
  | succ m ih =>
    intro v h
    cases hg : getItem0 v with
    | none => simp [idxChain, hg] at h
    | some c =>
      have h' : (idxChain (m + 1) c).isSome = true := by
        simpa [idxChain, hg] using h
      simpa [idxChain, hg] using ih c h'

/-- C7: geometry inference on a raw sequence: indexable three levels deep
is a Polygon, two a LineString, one a Point, anything else raises
`InvalidQueryError`; a mapping with `$geometry` passes through, one with
`type` and `coordinates` is wrapped, any other mapping raises
`InvalidQueryError`, and every non-mapping non-sequence value raises
`InvalidQueryError`. -/
theorem claim7_infer_geometry :
    (∀ l : List Val, (idxChain 3 (.list l)).isSome = true →
      inferGeometry (.list l) =
        .ok (.dict [("$geometry",
          .dict [("type", .str "Polygon"), ("coordinates", .list l)])])) ∧
    (∀ l : List Val, (idxChain 3 (.list l)).isSome = false →
      (idxChain 2 (.list l)).isSome = true →
      inferGeometry (.list l) =
        .ok (.dict [("$geometry",
          .dict [("type", .str "LineString"), ("coordinates", .list l)])])) ∧
    (∀ l : List Val, (idxChain 2 (.list l)).isSome = false →
      (idxChain 1 (.list l)).isSome = true →
      inferGeometry (.list l) =
        .ok (.dict [("$geometry",
          .dict [("type", .str "Point"), ("coordinates", .list l)])])) ∧
    (∀ l : List Val, (idxChain 1 (.list l)).isSome = false →
      inferGeometry (.list l) = .error (.invalidQuery
        "Invalid $geometry data. Can be either a dictionary or (nested) lists of coordinate(s)")) ∧
    (∀ d : List (String × Val), dictHasKey "$geometry" d = true →
      inferGeometry (.dict d) = .ok (.dict d)) ∧
    (∀ d : List (String × Val), dictHasKey "$geometry" d = false →
      (dictHasKey "coordinates" d && dictHasKey "type" d) = true →
      inferGeometry (.dict d) = .ok (.dict [("$geometry", .dict d)])) ∧
    (∀ d : List (String × Val), dictHasKey "$geometry" d = false →
      (dictHasKey "coordinates" d && dictHasKey "type" d) = false →
      inferGeometry (.dict d) = .error (.invalidQuery
        "Invalid $geometry dictionary should have type and coordinates keys")) ∧
    (∀ v : Val, v.isDict = false → v.isList = false →
      inferGeometry v = .error (.invalidQuery
        "Invalid $geometry data. Can be either a dictionary or (nested) lists of coordinate(s)")) := by
  have hchain : ∀ l : List Val, (idxChain 2 (.list l)).isSome = false →
      (idxChain 3 (.list l)).isSome = false := by
    intro l h2
    cases hx : (idxChain 3 (.list l)).isSome with
    | false => rfl
    | true =>
      have hc := idxChain_isSome_succ 2 _ hx
      rw [h2] at hc
      exact absurd hc Bool.false_ne_true
  have hchain1 : ∀ l : List Val, (idxChain 1 (.list l)).isSome = false →
      (idxChain 2 (.list l)).isSome = false := by
    intro l h1
    cases hx : (idxChain 2 (.list l)).isSome with
    | false => rfl
    | true =>
      have hc := idxChain_isSome_succ 1 _ hx
      rw [h1] at hc
      exact absurd hc Bool.false_ne_true
  refine ⟨?_, ?_, ?_, ?_, ?_, ?_, ?_, ?_⟩
  · intro l h; simp [inferGeometry, h]
  · intro l h3 h2; simp [inferGeometry, h3, h2]
  · intro l h2 h1; simp [inferGeometry, hchain l h2, h2, h1]
  · intro l h1
    have h2 := hchain1 l h1
    simp [inferGeometry, hchain l h2, h2, h1]
  · intro d h; simp [inferGeometry, h]
  · intro d hg hct; simp [inferGeometry, hg, hct]
  · intro d hg hct; simp [inferGeometry, hg, hct]
  · intro v hd hl
    cases v with
    | null => rfl
    | bool b => rfl
    | int n => rfl
    | str s => rfl
    | list l => simp [Val.isList] at hl
    | dict d => simp [Val.isDict] at hd

/-- C7 witness: each branch at a concrete input. -/
theorem claim7_infer_geometry_witness :
    inferGeometry (.list [.list [.list [.int 1]]]) =
      .ok (.dict [("$geometry", .dict [("type", .str "Polygon"),
        ("coordinates", .list [.list [.list [.int 1]]])])]) ∧
    inferGeometry (.list [.list [.int 1, .int 2]]) =
      .ok (.dict [("$geometry", .dict [("type", .str "LineString"),
        ("coordinates", .list [.list [.int 1, .int 2]])])]) ∧
    inferGeometry (.list [.int 1, .int 2]) =
      .ok (.dict [("$geometry", .dict [("type", .str "Point"),
        ("coordinates", .list [.int 1, .int 2])])]) ∧
    inferGeometry (.list []) = .error (.invalidQuery
      "Invalid $geometry data. Can be either a dictionary or (nested) lists of coordinate(s)") ∧
    inferGeometry (.dict [("$geometry", .int 0)]) =
      .ok (.dict [("$geometry", .int 0)]) ∧
    inferGeometry (.dict [("type", .str "Point"), ("coordinates", .list [.int 1])]) =
      .ok (.dict [("$geometry",
        .dict [("type", .str "Point"), ("coordinates", .list [.int 1])])]) ∧
    inferGeometry (.dict [("x", .int 1)]) = .error (.invalidQuery
      "Invalid $geometry dictionary should have type and coordinates keys") ∧
    inferGeometry (.int 3) = .error (.invalidQuery
      "Invalid $geometry data. Can be either a dictionary or (nested) lists of coordinate(s)") :=
  ⟨claim7_infer_geometry.1 _ rfl,
   claim7_infer_geometry.2.1 _ rfl rfl,
   claim7_infer_geometry.2.2.1 _ rfl rfl,
   claim7_infer_geometry.2.2.2.1 _ rfl,
   claim7_infer_geometry.2.2.2.2.1 _ rfl,
   claim7_infer_geometry.2.2.2.2.2.1 _ rfl rfl,
   claim7_infer_geometry.2.2.2.2.2.2.1 _ rfl rfl,
   claim7_infer_geometry.2.2.2.2.2.2.2 _ rfl rfl⟩

/-- C3: with an empty dirty set (a freshly hydrated document) the delta
is `({}, {})`; a dirty scalar field with a non-empty value yields
`({field: value}, {})`; a dict- or list-valued field reassigned to empty
when it previously had content yields `({}, {field: 1})` with the
type-independent sentinel `1`. -/
theorem claim3_delta_basics :
    (∀ current prior : List (String × Val), deltaModel [] current prior = ([], [])) ∧
    (∀ (f : String) (v : Val) (current prior : List (String × Val)),
      dictLookup f current = some v → valEmptyOpt (some v) = false →
      deltaModel [f] current prior = ([(f, v)], [])) ∧
    (∀ (f : String) (current prior : List (String × Val)) (pv : Val),
      dictLookup f current = some (.dict []) → dictLookup f prior = some pv →
      valEmptyOpt (some pv) = false →
      deltaModel [f] current prior = ([], [(f, .int 1)])) ∧
    (∀ (f : String) (current prior : List (String × Val)) (pv : Val),
      dictLookup f current = some (.list []) → dictLookup f prior = some pv →
      valEmptyOpt (some pv) = false →
      deltaModel [f] current prior = ([], [(f, .int 1)])) := by
  refine ⟨fun _ _ => rfl, ?_, ?_, ?_⟩
  · intro f v current prior hc hv
    simp [deltaModel, hc, hv]
  · intro f current prior pv hc hp hv
    have e1 : valEmptyOpt (some (Val.dict [])) = true := rfl
    simp [deltaModel, hc, hp, hv, e1]
  · intro f current prior pv hc hp hv
    have e1 : valEmptyOpt (some (Val.list [])) = true := rfl
    simp [deltaModel, hc, hp, hv, e1]

/-- C3 witness: the concrete scenarios of the delta test. -/
theorem claim3_delta_basics_witness :
    deltaModel [] [("a", .int 1)] [("a", .int 1)] = ([], []) ∧
    deltaModel ["string_field"]
        [("string_field", .str "hello")] [("string_field", .null)] =
      ([("string_field", .str "hello")], []) ∧
    deltaModel ["dict_field"]
        [("dict_field", .dict [])]
        [("dict_field", .dict [("hello", .str "world")])] =
      ([], [("dict_field", .int 1)]) ∧
    deltaModel ["list_field"]
        [("list_field", .list [])] [("list_field", .list [.int 1])] =
      ([], [("list_field", .int 1)]) :=
  ⟨claim3_delta_basics.1 _ _,
   claim3_delta_basics.2.1 "string_field" (.str "hello") _ _ rfl rfl,
   claim3_delta_basics.2.2.1 "dict_field" _ _ (.dict [("hello", .str "world")]) rfl rfl rfl,
   claim3_delta_basics.2.2.2 "list_field" _ _ (.list [.int 1]) rfl rfl rfl⟩

/-- C10: for an existing document, the `$set` entry `Document.save`
assembles never contains the primary key's storage field (it is popped
from the delta's sets first), and an empty delta issues no storage call
at all. -/
theorem claim10_save_id_and_noop :
    ∀ d : DocState, d.created = true →
      (∀ s : Val, dictLookup "$set" (saveUpdateQuery d) = some s →
        ∃ l : List (String × Val), s = Val.dict l ∧ dictLookup d.dbIdField l = none) ∧
      (d.deltaSets = [] → d.deltaUnsets = [] → docSave d = []) := by
  intro d hc
  constructor
  · intro s hs
    unfold saveUpdateQuery at hs
    by_cases h1 : (dictErase d.dbIdField d.deltaSets).isEmpty
    · by_cases h2 : d.deltaUnsets.isEmpty
      · simp [h1, h2, dictLookup] at hs
      · simp [h1, h2, dictLookup] at hs
    · simp [h1, dictLookup] at hs
      exact ⟨dictErase d.dbIdField d.deltaSets, hs.symm, dictLookup_dictErase_self _ _⟩
  · intro hS hU
    simp [docSave, hc, saveUpdateQuery, hS, hU, dictErase]

def saveDocA : DocState :=
  DocState.mk true [("_id", .int 1), ("a", .int 2)] [] "_id" (.dict []) (.dict [])

def saveDocB : DocState :=
  DocState.mk true [] [] "_id" (.dict []) (.dict [])

/-- C10 witness: a delta carrying the id field, and an empty delta. -/
theorem claim10_save_id_and_noop_witness :
    (∃ l : List (String × Val),
      Val.dict [("a", Val.int 2)] = Val.dict l ∧ dictLookup "_id" l = none) ∧
    docSave saveDocB = [] :=
  ⟨(claim10_save_id_and_noop saveDocA rfl).1 (Val.dict [("a", Val.int 2)]) rfl,
   (claim10_save_id_and_noop saveDocB rfl).2 rfl rfl⟩

theorem digitIndicesFrom_succ (k : Nat) (ps : List String) :
    digitIndicesFrom (k + 1) ps =
      (digitIndicesFrom k ps).map (fun ip => (ip.1 + 1, ip.2)) := by
  induction ps generalizing k with
  | nil => rfl
  | cons p ps ih =>
    by_cases h : pyIsDigit p
    · simp [digitIndicesFrom, h, ih]
    · simp [digitIndicesFrom, h, ih]

theorem reinsertAll_cons (ip : Nat × String) (rest : List (Nat × String))
    (l : List String) :
    reinsertAll (ip :: rest) l = reinsertAll rest (insertAt ip.1 ip.2 l) := rfl

theorem reinsertAll_mapSucc (ixs : List (Nat × String)) (a : String)
    (l : List String) :
    reinsertAll (ixs.map (fun ip => (ip.1 + 1, ip.2))) (a :: l) =
      a :: reinsertAll ixs l := by
  induction ixs generalizing l with
  | nil => rfl
  | cons ip rest ih =>
    simp only [List.map_cons, reinsertAll_cons]
    exact ih (insertAt ip.1 ip.2 l)

theorem extractReinsertRoundtrip (parts : List String) :
    reinsertAll (digitIndicesFrom 0 parts)
        (parts.filter (fun p => !pyIsDigit p)) = parts := by
  induction parts with
  | cons p ps ih =>
    by_cases h : pyIsDigit p
    · rw [show digitIndicesFrom 0 (p :: ps) = (0, p) :: digitIndicesFrom 1 ps by
        simp [digitIndicesFrom, h]]
      rw [show (p :: ps).filter (fun p => !pyIsDigit p) =
            ps.filter (fun p => !pyIsDigit p) by simp [List.filter, h]]
      rw [reinsertAll_cons]
      rw [show insertAt (0, p).1 (0, p).2 (ps.filter (fun p => !pyIsDigit p)) =
            p :: ps.filter (fun p => !pyIsDigit p) from rfl]
      rw [digitIndicesFrom_succ, reinsertAll_mapSucc, ih]
    · rw [show digitIndicesFrom 0 (p :: ps) = digitIndicesFrom 1 ps by
        simp [digitIndicesFrom, h]]
      rw [show (p :: ps).filter (fun p => !pyIsDigit p) =
            p :: ps.filter (fun p => !pyIsDigit p) by simp [List.filter, h]]
      rw [digitIndicesFrom_succ, reinsertAll_mapSucc, ih]
  | nil => rfl

/-- C8 counterexample: `update` performs no numeric-segment extraction.
On `set__price__gt__5` the trailing `gt` is not seen as an operator
(the numeric `5` hides it), so the storage key stays `price.gt.5`;
had numeric segments been removed before operator extraction and
reinserted afterwards—as `query` does on `price__gt__5`—the result
would have been key `price.5` with a `$gt` wrapper. -/
theorem claim8_counterexample :
    compileUpdate none [("set__price__gt__5", .int 2)] =
      .ok (.dict [("$set", .dict [("price.gt.5", .int 2)])]) ∧
    compileQuery none [("price__gt__5", .int 2)] =
      .ok (.dict [("price.5", .dict [("$gt", .int 2)])]) ∧
    ¬ compileUpdate none [("set__price__gt__5", .int 2)] =
        .ok (.dict [("$set", .dict [("price.5", .dict [("$gt", .int 2)])])]) := by
  have h1 : compileUpdate none [("set__price__gt__5", .int 2)] =
      .ok (.dict [("$set", .dict [("price.gt.5", .int 2)])]) := rfl
  refine ⟨h1, rfl, ?_⟩
  intro h
  rw [h1] at h
  simp at h

/-- C8 amended: in `query`, purely-numeric segments are removed
(recording original positions) before operator extraction and schema
resolution and reinserted at their original positions in the final
dot-joined key, so `posts__1__comments__0__name` resolves with `1` and
`0` back in place; `update` does not extract numeric segments at all,
leaving them in place literally. -/
theorem claim8_amended :
    (∀ parts : List String,
      reinsertAll (digitIndicesFrom 0 parts)
        (parts.filter (fun p => !pyIsDigit p)) = parts) ∧
    (∀ v : Val, compileQuery none [("posts__1__comments__0__name", v)] =
      .ok (.dict [("posts.1.comments.0.name", v)])) ∧
    (∀ v : Val, compileUpdate none [("set__posts__1__name", v)] =
      .ok (.dict [("$set", .dict [("posts.1.name", v)])])) :=
  ⟨extractReinsertRoundtrip, fun _ => rfl, fun _ => rfl⟩

end Mongo
